import Mathlib

/-!
Verification of the native-shell integration layer of open-sunsama
(desktop Tauri shell): tray, application menu, global shortcuts and the
settings commands, shallowly embedded from the Rust sources
(src-tauri/src/lib.rs, tray.rs, menu.rs, commands/settings.rs).

Handlers are embedded as pure functions from their inputs (the optional
main webview window together with the result of its visibility query,
the event identifier or shortcut) to the list of side effects they issue,
in order. The OS window is modelled by a visibility/focus record and an
interpreter of effect lists over it.
-/

deriving instance DecidableEq for Except

namespace OpenSunsama

/-- Side effects a shell handler can issue, in program order:
window.show(), window.set_focus(), window.hide(), window.emit(name, payload),
window.eval(script), opening an external URL, and std::process::exit(code). -/
inductive Effect where
  | show : Effect
  | setFocus : Effect
  | hide : Effect
  | emit : String → Option String → Effect
  | evalJs : String → Effect
  | openUrl : String → Effect
  | exitProcess : Nat → Effect
deriving DecidableEq

/-- The main webview window as seen by a handler: the only observation the
shell code makes of it is window.is_visible(), a fallible OS query. -/
structure WebviewWindow where
  isVisibleResult : Except String Bool
deriving DecidableEq

/-- Rust Result::unwrap_or on the visibility query. -/
def unwrapOr (r : Except String Bool) (d : Bool) : Bool :=
  match r with
  | .ok b => b
  | .error _ => d

/-- Mirrors the pattern: if let Some(window) = app.get_webview_window("main"),
with no effects when the window does not exist. -/
def withMainWindow (win : Option WebviewWindow) (f : WebviewWindow → List Effect) : List Effect :=
  match win with
  | some w => f w
  | none => []

/-- Modifier flags of a global shortcut (bitflags SUPER | SHIFT | CTRL | ALT). -/
structure Modifiers where
  superMod : Bool
  shiftMod : Bool
  ctrlMod : Bool
  altMod : Bool
deriving DecidableEq

/-- Physical key codes used by the shell, plus an escape for any other key. -/
inductive KeyCode where
  | KeyO : KeyCode
  | KeyT : KeyCode
  | KeyF : KeyCode
  | otherKey : String → KeyCode
deriving DecidableEq

/-- A global shortcut: modifier set plus key code (tauri Shortcut::new). -/
structure Shortcut where
  mods : Modifiers
  code : KeyCode
deriving DecidableEq

/-- Shortcut::new(Some(Modifiers::SUPER | Modifiers::SHIFT), Code::KeyO). -/
def toggleShortcut : Shortcut := ⟨⟨true, true, false, false⟩, .KeyO⟩

/-- Shortcut::new(Some(Modifiers::SUPER | Modifiers::SHIFT), Code::KeyT). -/
def newTaskShortcut : Shortcut := ⟨⟨true, true, false, false⟩, .KeyT⟩

/-- Shortcut::new(Some(Modifiers::SUPER | Modifiers::SHIFT), Code::KeyF). -/
def focusShortcut : Shortcut := ⟨⟨true, true, false, false⟩, .KeyF⟩

/-- Key press/release state delivered by the global-shortcut plugin. -/
inductive ShortcutState where
  | Pressed : ShortcutState
  | Released : ShortcutState
deriving DecidableEq

/-- Mouse buttons of a tray-icon event. -/
inductive MouseButton where
  | Left : MouseButton
  | Right : MouseButton
  | Middle : MouseButton
deriving DecidableEq

/-- Mouse button transition of a tray-icon event. -/
inductive MouseButtonState where
  | Up : MouseButtonState
  | Down : MouseButtonState
deriving DecidableEq

/-- Tray icon events: clicks carry a button and its transition; every other
event kind is collapsed into one constructor since the code ignores them. -/
inductive TrayIconEvent where
  | Click : MouseButton → MouseButtonState → TrayIconEvent
  | OtherTrayEvent : TrayIconEvent
deriving DecidableEq

/-- tray.rs on_menu_event handler: dispatch on the tray menu item id. -/
def trayOnMenuEvent (win : Option WebviewWindow) (id : String) : List Effect :=
  if id = "new_task" then
    withMainWindow win (fun _ => [.show, .setFocus, .emit "quick-add-task" none])
  else if id = "today" then
    withMainWindow win (fun _ => [.show, .setFocus, .emit "navigate" (some "/app")])
  else if id = "calendar" then
    withMainWindow win (fun _ => [.show, .setFocus, .emit "navigate" (some "/app/calendar")])
  else if id = "show_hide" then
    withMainWindow win (fun w =>
      if unwrapOr w.isVisibleResult false then [.hide] else [.show, .setFocus])
  else if id = "settings" then
    withMainWindow win (fun _ => [.show, .setFocus, .emit "navigate" (some "/app/settings")])
  else if id = "quit" then
    [.exitProcess 0]
  else []

/-- tray.rs on_tray_icon_event handler: a left-button-up click toggles the
window exactly like the show_hide item; every other event is ignored. -/
def trayOnTrayIconEvent (win : Option WebviewWindow) (ev : TrayIconEvent) : List Effect :=
  match ev with
  | .Click .Left .Up =>
      withMainWindow win (fun w =>
        if unwrapOr w.isVisibleResult false then [.hide] else [.show, .setFocus])
  | _ => []

/-- menu.rs on_menu_event handler: dispatch on the application menu item id. -/
def menuOnMenuEvent (win : Option WebviewWindow) (id : String) : List Effect :=
  if id = "settings" then
    withMainWindow win (fun _ => [.emit "navigate" (some "/app/settings")])
  else if id = "new_task" then
    withMainWindow win (fun _ => [.emit "quick-add-task" none])
  else if id = "today_view" then
    withMainWindow win (fun _ => [.emit "navigate" (some "/app")])
  else if id = "calendar_view" then
    withMainWindow win (fun _ => [.emit "navigate" (some "/app/calendar")])
  else if id = "reload" then
    withMainWindow win (fun _ => [.evalJs "window.location.reload()"])
  else if id = "documentation" then
    [.openUrl "https://github.com/your-org/open-sunsama"]
  else if id = "report_issue" then
    [.openUrl "https://github.com/your-org/open-sunsama/issues"]
  else []

/-- lib.rs handle_global_shortcut: compares the fired shortcut against the
three fixed bindings. -/
def handle_global_shortcut (win : Option WebviewWindow) (sc : Shortcut) : List Effect :=
  if sc = toggleShortcut then
    withMainWindow win (fun w =>
      if unwrapOr w.isVisibleResult false then [.hide] else [.show, .setFocus])
  else if sc = newTaskShortcut then
    withMainWindow win (fun _ => [.show, .setFocus, .emit "quick-add-task" none])
  else if sc = focusShortcut then
    withMainWindow win (fun _ => [.emit "start-focus-mode" none])
  else []

/-- lib.rs global-shortcut plugin with_handler closure: only a Pressed
transition reaches handle_global_shortcut. -/
def globalShortcutPluginHandler (win : Option WebviewWindow) (sc : Shortcut)
    (st : ShortcutState) : List Effect :=
  if st = .Pressed then handle_global_shortcut win sc else []

/-- OS-side window visibility/focus state, used to interpret effect lists. -/
structure WindowVis where
  visible : Bool
  focused : Bool
deriving DecidableEq

/-- OS semantics of a single effect on window state: show makes the window
visible, set_focus focuses it, hide makes it invisible and unfocused;
emissions, script evaluation, URL opening do not touch visibility or focus. -/
def applyEffect (w : WindowVis) : Effect → WindowVis
  | .show => { w with visible := true }
  | .setFocus => { w with focused := true }
  | .hide => ⟨false, false⟩
  | _ => w

/-- Interpret an effect list left to right over the window state. -/
def applyEffects (w : WindowVis) (es : List Effect) : WindowVis :=
  es.foldl applyEffect w

/-- A healthy OS visibility query: reports the actual visibility. -/
def queryOf (w : WindowVis) : Except String Bool := .ok w.visible

/-- True for effects that mutate window visibility or focus. -/
def isWindowMutation : Effect → Bool
  | .show => true
  | .setFocus => true
  | .hide => true
  | _ => false

/-- True for event emissions toward the UI layer. -/
def isEmitEffect : Effect → Bool
  | .emit _ _ => true
  | _ => false

/-- An effect list that neither mutates the window nor emits to the UI. -/
def effectsSilent (es : List Effect) : Bool :=
  es.all (fun e => !isWindowMutation e && !isEmitEffect e)

/-- Event names whose emission, per the spec, requires the window to be
visible and focused first: navigate and quick-add-task. -/
def visibilityRequiringEmit (n : String) : Bool :=
  n = "navigate" || n = "quick-add-task"

/-- Scans an effect list and checks that every navigate or quick-add-task
emission is strictly preceded by both a show and a set_focus effect.
The two flags record whether a show (resp. set_focus) was already seen. -/
def showFocusPrecedesVisEmitsAux (seenShow seenFocus : Bool) : List Effect → Bool
  | [] => true
  | .show :: rest => showFocusPrecedesVisEmitsAux true seenFocus rest
  | .setFocus :: rest => showFocusPrecedesVisEmitsAux seenShow true rest
  | .emit n _ :: rest =>
      (!visibilityRequiringEmit n || (seenShow && seenFocus)) &&
        showFocusPrecedesVisEmitsAux seenShow seenFocus rest
  | _ :: rest => showFocusPrecedesVisEmitsAux seenShow seenFocus rest

/-- Every navigate or quick-add-task emission in the list is preceded by a
show and a set_focus. -/
def showFocusPrecedesVisEmits (es : List Effect) : Bool :=
  showFocusPrecedesVisEmitsAux false false es

/-- Number of emissions of a given event name in an effect list. -/
def countEmits (n : String) (es : List Effect) : Nat :=
  (es.filter (fun e =>
    match e with
    | .emit m _ => m = n
    | _ => false)).length

/-- JSON values, as stored by the settings store (serde_json::Value). -/
inductive Json where
  | null : Json
  | bool : Bool → Json
  | num : Int → Json
  | str : String → Json
  | arr : List Json → Json
  | obj : List (String × Json) → Json

/-- commands/settings.rs AppSettings, all four fields serde(default). -/
structure AppSettings where
  theme : String
  auto_launch : Bool
  minimize_to_tray : Bool
  global_shortcuts_enabled : Bool
deriving DecidableEq

/-- The serde Default values of AppSettings. -/
def defaultSettings : AppSettings := ⟨"", false, false, false⟩

/-- Look up a field by name in a JSON object body. -/
def jsonLookup (fields : List (String × Json)) (k : String) : Option Json :=
  (fields.find? (fun p => p.1 = k)).map (fun p => p.2)

/-- serde deserialization of a String field: only a JSON string is accepted. -/
def deserStringField : Json → Except String String
  | .str s => .ok s
  | _ => .error "invalid type: expected a string"

/-- serde deserialization of a bool field: only a JSON boolean is accepted. -/
def deserBoolField : Json → Except String Bool
  | .bool b => .ok b
  | _ => .error "invalid type: expected a boolean"

/-- serde(default) field handling: a missing field takes the default value;
a present field must deserialize, and its type error fails the whole struct. -/
def deserFieldOr {α : Type} (fields : List (String × Json)) (k : String)
    (d : Json → Except String α) (dflt : α) : Except String α :=
  match jsonLookup fields k with
  | none => .ok dflt
  | some v => d v

/-- serde_json::from_value for AppSettings: a non-object value is a type
error; each field is serde(default), unknown fields are ignored. -/
def deserAppSettings : Json → Except String AppSettings
  | .obj fields => do
      let theme ← deserFieldOr fields "theme" deserStringField ""
      let al ← deserFieldOr fields "auto_launch" deserBoolField false
      let mt ← deserFieldOr fields "minimize_to_tray" deserBoolField false
      let gs ← deserFieldOr fields "global_shortcuts_enabled" deserBoolField false
      pure ⟨theme, al, mt, gs⟩
  | _ => .error "invalid type: expected struct AppSettings"

/-- Result::unwrap_or_default on a deserialized AppSettings. -/
def unwrapOrDefaultSettings (r : Except String AppSettings) : AppSettings :=
  match r with
  | .ok s => s
  | .error _ => defaultSettings

/-- commands/settings.rs get_settings, given the stored value at key
"settings" (None when the key is absent): a present value is deserialized
with unwrap_or_default, an absent one yields the defaults; always Ok. -/
def get_settings (stored : Option Json) : Except String AppSettings :=
  match stored with
  | some value => .ok (unwrapOrDefaultSettings (deserAppSettings value))
  | none => .ok defaultSettings

/-- serde_json::to_value of AppSettings (field names as in the Rust struct). -/
def serializeAppSettings (s : AppSettings) : Json :=
  .obj [("theme", .str s.theme),
        ("auto_launch", .bool s.auto_launch),
        ("minimize_to_tray", .bool s.minimize_to_tray),
        ("global_shortcuts_enabled", .bool s.global_shortcuts_enabled)]

/-- The settings store: the value at key "settings", and whether the
persistence write (store.save) fails. -/
structure SettingsStore where
  contents : Option Json
  saveFails : Bool

/-- commands/settings.rs set_settings: serializes the full settings object,
store.set, then store.save whose failure becomes the returned error. The
third component records every AutoLaunchService invocation the command makes
(true = enable, false = disable): the source makes none. -/
def set_settings (store : SettingsStore) (s : AppSettings) :
    Except String Unit × SettingsStore × List Bool :=
  let store1 : SettingsStore := { store with contents := some (serializeAppSettings s) }
  if store.saveFails then
    (.error "Failed to save settings", store1, [])
  else
    (.ok (), store1, [])

/-- The OS auto-launch registration as the autostart plugin exposes it:
the current registration flag and whether each service call fails. -/
structure AutoLaunchOs where
  registered : Bool
  enableFails : Bool
  disableFails : Bool
  isEnabledFails : Bool
deriving DecidableEq

/-- AutoLaunchService enable(): on failure the registration is unchanged. -/
def autostartEnable (os : AutoLaunchOs) : Except String Unit × AutoLaunchOs :=
  if os.enableFails then (.error "os error", os)
  else (.ok (), { os with registered := true })

/-- AutoLaunchService disable(): on failure the registration is unchanged. -/
def autostartDisable (os : AutoLaunchOs) : Except String Unit × AutoLaunchOs :=
  if os.disableFails then (.error "os error", os)
  else (.ok (), { os with registered := false })

/-- AutoLaunchService is_enabled(): reports the actual registration. -/
def autostartIsEnabled (os : AutoLaunchOs) : Except String Bool :=
  if os.isEnabledFails then .error "os error" else .ok os.registered

/-- commands/settings.rs set_auto_launch: calls enable or disable and
map_err wraps the failure message. -/
def set_auto_launch (os : AutoLaunchOs) (enabled : Bool) :
    Except String Unit × AutoLaunchOs :=
  if enabled then
    match autostartEnable os with
    | (.ok _, os1) => (.ok (), os1)
    | (.error e, os1) => (.error ("Failed to enable auto-launch: " ++ e), os1)
  else
    match autostartDisable os with
    | (.ok _, os1) => (.ok (), os1)
    | (.error e, os1) => (.error ("Failed to disable auto-launch: " ++ e), os1)

/-- commands/settings.rs get_auto_launch: queries is_enabled, map_err wraps
the failure message. -/
def get_auto_launch (os : AutoLaunchOs) : Except String Bool :=
  match autostartIsEnabled os with
  | .ok b => .ok b
  | .error e => .error ("Failed to get auto-launch status: " ++ e)

/-- lib.rs register_global_shortcuts: registers the three fixed bindings in
order, each followed by the question-mark operator, so the first failure
returns immediately. The second component lists the bindings whose OS
registration was actually attempted, in order. -/
def register_global_shortcuts (osRegister : Shortcut → Except String Unit) :
    Except String Unit × List Shortcut :=
  match osRegister toggleShortcut with
  | .error e => (.error e, [toggleShortcut])
  | .ok _ =>
    match osRegister newTaskShortcut with
    | .error e => (.error e, [toggleShortcut, newTaskShortcut])
    | .ok _ =>
      match osRegister focusShortcut with
      | .error e => (.error e, [toggleShortcut, newTaskShortcut, focusShortcut])
      | .ok _ => (.ok (), [toggleShortcut, newTaskShortcut, focusShortcut])

/-- lib.rs setup closure: create_tray, create_menu and
register_global_shortcuts in order, each followed by the question-mark
operator; an error from any of them fails the whole setup (and the run
call then panics via expect, so startup does not proceed). -/
def setup (trayRes menuRes : Except String Unit)
    (osRegister : Shortcut → Except String Unit) : Except String Unit :=
  match trayRes with
  | .error e => .error e
  | .ok _ =>
    match menuRes with
    | .error e => .error e
    | .ok _ => (register_global_shortcuts osRegister).1

/-- Claim C1 counterexample: the application-menu handler for the new_task
item emits quick-add-task without any preceding show or set_focus call, with
the main window present, refuting the claim that every adapter first ensures
visibility and focus before emitting navigate or quick-add-task. -/
theorem c1_menu_emits_without_show_cex :
    menuOnMenuEvent (some ⟨.ok true⟩) "new_task" = [.emit "quick-add-task" none] ∧
    showFocusPrecedesVisEmits (menuOnMenuEvent (some ⟨.ok true⟩) "new_task") = false := by
  decide

/-- Claim C1, amended: the tray-menu adapter and the global-shortcut adapter
always issue show and set_focus before any navigate or quick-add-task
emission, but the application-menu adapter emits these events directly and
never mutates window visibility or focus at all. -/
theorem c1_show_focus_discipline (win : Option WebviewWindow) (id : String)
    (sc : Shortcut) (st : ShortcutState) :
    showFocusPrecedesVisEmits (trayOnMenuEvent win id) = true ∧
    showFocusPrecedesVisEmits (globalShortcutPluginHandler win sc st) = true ∧
    (menuOnMenuEvent win id).all (fun e => !isWindowMutation e) = true := by
  refine ⟨?_, ?_, ?_⟩
  · cases win <;>
      simp only [trayOnMenuEvent, withMainWindow] <;>
      split_ifs <;> rfl
  · cases win <;>
      simp only [globalShortcutPluginHandler, handle_global_shortcut, withMainWindow] <;>
      split_ifs <;> rfl
  · cases win <;>
      simp only [menuOnMenuEvent, withMainWindow] <;>
      split_ifs <;> rfl

/-- Claim C2 counterexample: when the visibility query fails, the tray
show_hide handler does decide to show (the failed query is collapsed to
not-visible by unwrap_or(false)), refuting the claim that no show or hide
decision is made from an assumed-Hidden state on query failure. -/
theorem c2_query_failure_inferred_hidden_cex :
    trayOnMenuEvent (some ⟨.error "query failed"⟩) "show_hide" = [.show, .setFocus] ∧
    Effect.show ∈ trayOnMenuEvent (some ⟨.error "query failed"⟩) "show_hide" := by
  decide

/-- Claim C2, amended: on visibility-query failure every ToggleWindow
handler (tray show_hide item, tray-icon left click, Super+Shift+O) treats
the window as not visible, via is_visible().unwrap_or(false), and takes the
show-and-focus branch. -/
theorem c2_query_failure_shows_and_focuses (e : String) :
    unwrapOr (.error e) false = false ∧
    trayOnMenuEvent (some ⟨.error e⟩) "show_hide" = [.show, .setFocus] ∧
    handle_global_shortcut (some ⟨.error e⟩) toggleShortcut = [.show, .setFocus] ∧
    trayOnTrayIconEvent (some ⟨.error e⟩) (.Click .Left .Up) = [.show, .setFocus] := by
  exact ⟨rfl, rfl, rfl, rfl⟩

/-- Claim C3: each ToggleWindow dispatch path decides from a fresh
visibility query (the handlers read is_visible() at dispatch time and hold
no cached state): a query reporting visible leads to hide, otherwise to
show and set_focus; and starting Hidden with a healthy OS, a toggle makes
the window visible and focused and a second toggle hides it again. -/
theorem c3_toggle_requery_and_scenario (b f : Bool) :
    (trayOnMenuEvent (some ⟨.ok b⟩) "show_hide"
        = if b then [.hide] else [.show, .setFocus]) ∧
    (handle_global_shortcut (some ⟨.ok b⟩) toggleShortcut
        = if b then [.hide] else [.show, .setFocus]) ∧
    (trayOnTrayIconEvent (some ⟨.ok b⟩) (.Click .Left .Up)
        = if b then [.hide] else [.show, .setFocus]) ∧
    (let w0 : WindowVis := ⟨false, f⟩
     let w1 := applyEffects w0 (trayOnMenuEvent (some ⟨queryOf w0⟩) "show_hide")
     let w2 := applyEffects w1 (trayOnMenuEvent (some ⟨queryOf w1⟩) "show_hide")
     w1 = ⟨true, true⟩ ∧ w2.visible = false) := by
  cases b <;> cases f <;> decide

/-- Claim C4: with the main window present, a Pressed transition of
Super+Shift+T shows and focuses the window and emits quick-add-task exactly
once, with the emission after show and set_focus; a Released transition
produces nothing. -/
theorem c4_quick_add_once_per_press (w : WebviewWindow) :
    globalShortcutPluginHandler (some w) newTaskShortcut .Pressed
      = [.show, .setFocus, .emit "quick-add-task" none] ∧
    countEmits "quick-add-task"
      (globalShortcutPluginHandler (some w) newTaskShortcut .Pressed) = 1 ∧
    showFocusPrecedesVisEmits
      (globalShortcutPluginHandler (some w) newTaskShortcut .Pressed) = true ∧
    globalShortcutPluginHandler (some w) newTaskShortcut .Released = [] := by
  exact ⟨rfl, rfl, rfl, rfl⟩

/-- Claim C5 counterexample: a stored value whose theme field has the wrong
type but whose auto_launch field is validly stored as true deserializes to
the all-defaults record: the type error in one field wipes every other
field back to its default instead of degrading that field only. -/
theorem c5_bad_field_wipes_others_cex :
    get_settings (some (.obj [("theme", .num 42), ("auto_launch", .bool true)]))
      = .ok defaultSettings ∧
    deserFieldOr [("theme", Json.num 42), ("auto_launch", Json.bool true)]
      "auto_launch" deserBoolField false = .ok true ∧
    defaultSettings.auto_launch = false := by
  decide

/-- Claim C5, amended: get_settings never returns an error for any stored
value; a missing or wholly unparseable stored value yields the documented
defaults; a field missing from a stored object defaults individually while
other fields keep their stored values; but a type-unparseable field makes
the whole value degrade to the defaults, losing the other stored fields. -/
theorem c5_defaults_behavior (stored : Option Json) :
    (∃ s, get_settings stored = .ok s) ∧
    get_settings none = .ok defaultSettings ∧
    get_settings (some (.str "corrupt")) = .ok defaultSettings ∧
    get_settings (some (.obj [("auto_launch", .bool true)]))
      = .ok ⟨"", true, false, false⟩ ∧
    get_settings (some (.obj [("theme", .num 42), ("auto_launch", .bool true)]))
      = .ok defaultSettings := by
  refine ⟨?_, by decide, by decide, by decide, by decide⟩
  cases stored with
  | none => exact ⟨defaultSettings, rfl⟩
  | some v => exact ⟨unwrapOrDefaultSettings (deserAppSettings v), rfl⟩

/-- Claim C6 counterexample: a write whose auto_launch value is true makes
no AutoLaunchService invocation at all (the invocation list is empty), so in
particular when the OS's current registration is false and thus differs from
the written value, the service is still not invoked. -/
theorem c6_no_autolaunch_call_cex :
    (set_settings ⟨none, false⟩ ⟨"", true, false, false⟩).1 = .ok () ∧
    (set_settings ⟨none, false⟩ ⟨"", true, false, false⟩).2.2 = [] ∧
    (⟨"", true, false, false⟩ : AppSettings).auto_launch = true := by
  decide

/-- Claim C6, amended: set_settings persists the full serialized settings
object and surfaces a save failure as its error result, but it never invokes
the AutoLaunchService; OS auto-launch registration changes only through the
separate set_auto_launch command. -/
theorem c6_set_settings_persists_no_reconcile (store : SettingsStore) (s : AppSettings) :
    (set_settings store s).2.1.contents = some (serializeAppSettings s) ∧
    (set_settings store s).2.2 = [] ∧
    (set_settings store s).1
      = (if store.saveFails then .error "Failed to save settings" else .ok ()) := by
  refine ⟨?_, ?_, ?_⟩ <;> simp only [set_settings] <;> split_ifs <;> rfl

/-- An OS registration function that fails only for the first binding
(Super+Shift+O), as in an OS-level conflict with another application. -/
def failToggleRegister : Shortcut → Except String Unit :=
  fun sc => if sc = toggleShortcut then .error "conflict" else .ok ()

/-- Claim C7 counterexample: when the first binding fails to register, only
that binding was attempted (Super+Shift+T and Super+Shift+F are never
registered) and the setup closure returns the error, so the rest of startup
does not proceed, refuting the claim. -/
theorem c7_first_failure_aborts_cex :
    register_global_shortcuts failToggleRegister
      = (.error "conflict", [toggleShortcut]) ∧
    setup (.ok ()) (.ok ()) failToggleRegister = .error "conflict" := by
  decide

/-- Claim C7, amended: each registration is followed by the question-mark
operator, so a failure propagates: later bindings are not attempted and the
setup closure fails with the same error (the run call then panics); only
when all three registrations succeed does setup succeed. -/
theorem c7_registration_failure_propagates (e : String) :
    register_global_shortcuts (fun _ => .error e) = (.error e, [toggleShortcut]) ∧
    register_global_shortcuts (fun _ => .ok ())
      = (.ok (), [toggleShortcut, newTaskShortcut, focusShortcut]) ∧
    setup (.ok ()) (.ok ()) (fun _ => .error e) = .error e ∧
    setup (.ok ()) (.ok ()) (fun _ => .ok ()) = .ok () := by
  exact ⟨rfl, rfl, rfl, rfl⟩

/-- Claim C8: when the OS enable call fails, set_auto_launch(true) returns
an error, the OS registration is unchanged, and a subsequent
get_auto_launch reports that unchanged actual state (for an initially
unregistered OS this is false, not the requested true). -/
theorem c8_enable_failure_reports_actual_state (b db : Bool) :
    (set_auto_launch ⟨b, true, db, false⟩ true).1
      = .error "Failed to enable auto-launch: os error" ∧
    (set_auto_launch ⟨b, true, db, false⟩ true).2 = ⟨b, true, db, false⟩ ∧
    get_auto_launch (set_auto_launch ⟨b, true, db, false⟩ true).2 = .ok b := by
  cases b <;> cases db <;> decide

/-- Claim C9: handling Super+Shift+F (start-focus-mode) and the menu reload
item leaves window visibility and focus exactly as they were, for every
prior window state and whether or not the main window exists: neither
handler issues any show, hide or set_focus effect. -/
theorem c9_focus_and_reload_preserve_window (w : WindowVis) (win : Option WebviewWindow) :
    applyEffects w (handle_global_shortcut win focusShortcut) = w ∧
    applyEffects w (menuOnMenuEvent win "reload") = w ∧
    (handle_global_shortcut win focusShortcut).all (fun e => !isWindowMutation e) = true ∧
    (menuOnMenuEvent win "reload").all (fun e => !isWindowMutation e) = true := by
  cases win <;> exact ⟨rfl, rfl, rfl, rfl⟩

/-- Claim C10: with no main webview window, every tray-menu event other
than quit produces no effects, every application-menu event produces neither
a window mutation nor an emission, and every global-shortcut or tray-icon
event produces no effects; all handlers return normally. -/
theorem c10_no_window_silent (id : String) (sc : Shortcut) (st : ShortcutState)
    (ev : TrayIconEvent) (h : id ≠ "quit") :
    trayOnMenuEvent none id = [] ∧
    effectsSilent (menuOnMenuEvent none id) = true ∧
    handle_global_shortcut none sc = [] ∧
    globalShortcutPluginHandler none sc st = [] ∧
    trayOnTrayIconEvent none ev = [] := by
  have hgs : handle_global_shortcut none sc = [] := by
    simp only [handle_global_shortcut, withMainWindow]
    split_ifs <;> rfl
  refine ⟨?_, ?_, hgs, ?_, ?_⟩
  · simp only [trayOnMenuEvent, withMainWindow]
    split_ifs <;> rfl
  · simp only [menuOnMenuEvent, withMainWindow]
    split_ifs <;> rfl
  · simp only [globalShortcutPluginHandler]
    split_ifs <;> first | exact hgs | rfl
  · cases ev with
    | Click b bs => cases b <;> cases bs <;> rfl
    | OtherTrayEvent => rfl

/-- Witness for claim C10 at the tray item today, the Super+Shift+O
shortcut pressed and a left-button-up tray click. -/
theorem c10_no_window_silent_witness :
    ("today" : String) ≠ "quit" ∧
    (trayOnMenuEvent none "today" = [] ∧
     effectsSilent (menuOnMenuEvent none "today") = true ∧
     handle_global_shortcut none toggleShortcut = [] ∧
     globalShortcutPluginHandler none toggleShortcut .Pressed = [] ∧
     trayOnTrayIconEvent none (.Click .Left .Up) = []) :=
  ⟨by decide, c10_no_window_silent "today" toggleShortcut .Pressed (.Click .Left .Up) (by decide)⟩

end OpenSunsama
